import Mathlib

/-!
Verification of the device-batch runner in `for_this_send_that.py`.

The script reads a spreadsheet of device rows (`open_file`), obtains one
credential pair, and then iterates the rows: for each device it connects,
escalates, sends one command set, optionally runs a verification command,
decides whether to save, and disconnects, catching only the two recognized
netmiko connection errors per device.

The embedding below models the external netmiko session as an oracle of
per-call results and records every call made to the session as an `Event`,
every `logger` line as a `String`, and the control flow of `main`'s
per-device body faithfully, including the loop-carried Python local
`result` (which survives from one iteration to the next).
-/

namespace ForThisSendThat

/-- Python `pat in s` substring test on character lists: `startsWithL` is
`str.startswith` on lists. -/
def startsWithL : List Char → List Char → Bool
  | [], _ => true
  | _ :: _, [] => false
  | a :: as, b :: bs => a == b && startsWithL as bs

/-- Occurrence test of `pat` anywhere in `s` (character-list form). -/
def containsL (pat : List Char) : List Char → Bool
  | [] => pat.isEmpty
  | c :: rest => startsWithL pat (c :: rest) || containsL pat rest

/-- Python's `pat in s` on strings (case-sensitive substring containment). -/
def strIn (pat s : String) : Bool := containsL pat.data s.data

/-- The two netmiko exception classes named in `netmiko_exceptions`:
`NetMikoTimeoutException` and `NetMikoAuthenticationException`. -/
inductive NetErr
  | timeout
  | authFail
deriving DecidableEq

/-- Python exceptions that can surface in the per-device body: the two
recognized netmiko errors, `NameError` (unbound local `result`),
`TypeError` (string concatenation with `None`), `KeyboardInterrupt`
(operator cancels a blocking `raw_input`), and any other error. Only the
`net` ones are caught by `main`'s `except` clause. -/
inductive PyErr
  | net (e : NetErr)
  | nameError
  | typeError
  | keyboardInterrupt
  | other
deriving DecidableEq

/-- One call made on the external session capability (or the one operator
prompt issued by `ask_to_save`). -/
inductive Event
  | connect (host : String)
  | enable
  | sendConfigSet (cmds : Option String) (exitConfigMode : Bool)
  | sendCommand (cmd : String)
  | commit (andQuit : Bool)
  | promptSave
  | disconnect
deriving DecidableEq

/-- One row of the spreadsheet as loaded by `open_file`: the five cell
values of columns A..E, each possibly empty (`None`). -/
structure DeviceRecordRaw where
  host : Option String
  device_type : Option String
  implementation_cmds : Option String
  rollback_cmds : Option String
  verification_cmds : Option String
deriving DecidableEq

/-- A worksheet row: the cells `A`..`E` that `open_file` reads. -/
structure XRow where
  a : Option String
  b : Option String
  c : Option String
  d : Option String
  e : Option String
deriving DecidableEq

/-- The record `open_file` builds from worksheet row `r`. -/
def mkRecord (r : XRow) : DeviceRecordRaw :=
  ⟨r.a, r.b, r.c, r.d, r.e⟩

/-- `open_file`: rows `2 .. max_row` of the active sheet each become one
record (keyed 1,2,3,... in source order); no cell is validated and no row
is filtered. -/
def open_file (ws : List XRow) : List DeviceRecordRaw :=
  (ws.drop 1).map mkRecord

/-- Results of the external calls made while processing one device, plus
the outcome of the blocking `raw_input` at the save prompt: either the
operator's answer line or a raised exception (`KeyboardInterrupt` on
cancellation, `EOFError`, ...). `none` / `Except.ok` is a call that
returns normally; `some e` / `Except.error e` is a call that raises `e`. -/
structure Oracle where
  connectR : Option PyErr
  enableR : Option PyErr
  sendR : Except PyErr String
  verifyR : Except PyErr String
  saveR : Option PyErr
  disconnectR : Option PyErr
  answerR : Except PyErr String

/-- Terminal status of one device's processing: the body ran to the end,
a recognized netmiko error was caught by the `except` clause, or an
unrecognized error propagated and aborted the whole run. -/
inductive Outcome
  | completed
  | caught (e : NetErr)
  | aborted (e : PyErr)
deriving DecidableEq

/-- Everything observable about one device's processing: session calls,
log lines, and the terminal status. -/
structure DeviceResult where
  events : List Event
  logs : List String
  outcome : Outcome
deriving DecidableEq

/-- A device counts as succeeded only when its body ran to the end. -/
def succeeded (d : DeviceResult) : Bool :=
  match d.outcome with
  | Outcome.completed => true
  | _ => false

/-- Character-level body of `indentem`'s `replace('\n', '\n    ')`. -/
def indentChars : List Char → List Char
  | [] => []
  | c :: rest =>
    if c == '\n' then c :: ' ' :: ' ' :: ' ' :: ' ' :: indentChars rest
    else c :: indentChars rest

/-- `indentem`: prepend four spaces and indent every subsequent line. -/
def indentem (lines : String) : String :=
  String.mk (' ' :: ' ' :: ' ' :: ' ' :: indentChars lines.data)

/-- Python truthiness of a cell value: `None` and `''` are falsy. -/
def truthy : Option String → Bool
  | none => false
  | some s => !s.isEmpty

/-- ASCII lowercasing of one character, as `str.lower` does on ASCII. -/
def lowerChar (c : Char) : Char :=
  if 'A' ≤ c && c ≤ 'Z' then Char.ofNat (c.toNat + 32) else c

/-- `answer.lower()` on the answer strings involved here (ASCII). -/
def pyLower (s : String) : String :=
  String.mk (s.data.map lowerChar)

/-- `ask_to_save`: read an answer; return it when its lowercasing is `y`,
otherwise fall through and return `None`. -/
def ask_to_save (answer : String) : Option String :=
  if pyLower answer == "y" then some answer else none

/-- `save_now`: session calls issued for a device type — `write mem` when
the type contains `cisco`, `commit(and_quit=True)` when it equals
`juniper`, nothing otherwise. -/
def save_now (device_type : String) : List Event :=
  if strIn "cisco" device_type then [Event.sendCommand "write mem"]
  else if device_type == "juniper" then [Event.commit true]
  else []

/-- The command set (and `exit_config_mode` argument) selected by the
`if args.rollback / elif cisco / elif juniper` chain of `main`;
`none` when no branch fires and nothing is sent. -/
def chosenSend (rollback : Bool) (device_type : String)
    (impl rbc : Option String) : Option (Option String × Bool) :=
  if rollback then some (rbc, true)
  else if strIn "cisco" device_type then some (impl, true)
  else if strIn "juniper" device_type then some (impl, false)
  else none

/-- Output of a (segment of the) per-device body: events so far, log lines
so far, the exception in flight if one was raised, and the value of the
loop-carried Python local `result` after the segment. -/
abbrev BodyOut := (List Event × List String × Option PyErr) × Option String

/-- Tail of the body: log `Disconnecting`, then call `disconnect` (which
may itself raise). -/
def disconnectStep (h : String) (o : Oracle) (evs : List Event)
    (lgs : List String) (resVar : Option String) : BodyOut :=
  match o.disconnectR with
  | some e => ((evs ++ [Event.disconnect], lgs ++ ["Disconnecting from " ++ h], some e), resVar)
  | none => ((evs ++ [Event.disconnect], lgs ++ ["Disconnecting from " ++ h], none), resVar)

/-- Call `save_now`, then log the saved line and fall through to the
disconnect step; a raising save call stops the body there. When
`save_now` issues no session call it cannot raise. -/
def doSave (h dt : String) (o : Oracle) (evs : List Event)
    (lgs : List String) (savedLog : String) (resVar : Option String) : BodyOut :=
  match save_now dt, o.saveR with
  | [], _ => disconnectStep h o evs (lgs ++ [savedLog]) resVar
  | acts, some e => ((evs ++ acts, lgs, some e), resVar)
  | acts, none => disconnectStep h o (evs ++ acts) (lgs ++ [savedLog]) resVar

/-- The save decision of `main`: with `-v`, prompt once via `ask_to_save`
and save only when it returned the exact string `y`; without `-v`, save
silently. The `raw_input` inside `ask_to_save` is caught nowhere, so an
exception raised there (operator cancellation) propagates out of the save
decision. -/
def saveStep (vf : Bool) (h dt : String) (o : Oracle) (evs : List Event)
    (lgs : List String) (resVar : Option String) : BodyOut :=
  if vf then
    match o.answerR with
    | Except.error e => ((evs ++ [Event.promptSave], lgs, some e), resVar)
    | Except.ok answer =>
      if ask_to_save answer == some "y" then
        doSave h dt o (evs ++ [Event.promptSave]) lgs
          ("Saved config changes on " ++ h) resVar
      else
        disconnectStep h o (evs ++ [Event.promptSave])
          (lgs ++ ["Changes NOT saved, roll back or reboot"]) resVar
  else
    doSave h dt o evs lgs ("Saved changes on " ++ h) resVar

/-- Log line written by `verify_config` for the verification transcript. -/
def verifLog (cmds proof : String) : String :=
  "Verification commands: \"" ++ cmds ++ "\" \n" ++ indentem proof

/-- Body from the point where `result` holds a transcript: log the
`Actions` line, run `verify_config` when the verification cell is truthy
(its `send_command` may raise), then take the save decision and
disconnect. -/
def afterExec (vf : Bool) (h dt : String) (verif : Option String)
    (o : Oracle) (evs : List Event) (lgs : List String) (result : String)
    (resVar : Option String) : BodyOut :=
  let lgs1 := lgs ++ ["Actions: \n" ++ indentem result]
  if truthy verif then
    match o.verifyR with
    | Except.error e => ((evs ++ [Event.sendCommand (verif.getD "")], lgs1, some e), resVar)
    | Except.ok proof =>
      saveStep vf h dt o (evs ++ [Event.sendCommand (verif.getD "")])
        (lgs1 ++ [verifLog (verif.getD "") proof]) resVar
  else saveStep vf h dt o evs lgs1 resVar

/-- The whole `try` body of `main` for one device: connect, enable, send
the chosen command set (binding `result`), then `afterExec`. When no
branch of the send chain fires, `indentem(result)` reads the loop-carried
`result`: unbound (`none`) raises `NameError`, otherwise the stale
transcript of an earlier device is used. -/
def deviceBody (rollback vf : Bool) (h dt : String)
    (impl rbc verif : Option String) (o : Oracle)
    (resVar : Option String) : BodyOut :=
  match o.connectR with
  | some e => (([Event.connect h], [], some e), resVar)
  | none =>
    match o.enableR with
    | some e => (([Event.connect h, Event.enable],
        ["Successfully connected to " ++ h], some e), resVar)
    | none =>
      match chosenSend rollback dt impl rbc with
      | none =>
        match resVar with
        | none => (([Event.connect h, Event.enable],
            ["Successfully connected to " ++ h], some PyErr.nameError), resVar)
        | some r => afterExec vf h dt verif o [Event.connect h, Event.enable]
            ["Successfully connected to " ++ h] r resVar
      | some (cmds, em) =>
        match o.sendR with
        | Except.error e => (([Event.connect h, Event.enable, Event.sendConfigSet cmds em],
            ["Successfully connected to " ++ h], some e), resVar)
        | Except.ok r => afterExec vf h dt verif o
            [Event.connect h, Event.enable, Event.sendConfigSet cmds em]
            ["Successfully connected to " ++ h] r (some r)

/-- The `except netmiko_exceptions` clause: a recognized netmiko error is
caught and logged (`Failed to connect`); any other exception propagates. -/
def wrapBody : List Event × List String × Option PyErr → DeviceResult
  | (ev, lg, none) => ⟨ev, lg, Outcome.completed⟩
  | (ev, lg, some (PyErr.net n)) => ⟨ev, lg ++ ["Failed to connect"], Outcome.caught n⟩
  | (ev, lg, some e) => ⟨ev, lg, Outcome.aborted e⟩

/-- One iteration of `main`'s device loop. The `Connecting to ...` print
concatenates the host and type cells before the `try`, so an empty cell
raises an uncaught `TypeError` there. -/
def processDevice (rollback vf : Bool) (rec : DeviceRecordRaw) (o : Oracle)
    (resVar : Option String) : DeviceResult × Option String :=
  match rec.host, rec.device_type with
  | some h, some dt =>
    let r := deviceBody rollback vf h dt rec.implementation_cmds
      rec.rollback_cmds rec.verification_cmds o resVar
    (wrapBody r.1, r.2)
  | _, _ => (⟨[], [], Outcome.aborted PyErr.typeError⟩, resVar)

/-- The device loop of `main`: process records in order, threading the
loop-carried `result` local; a caught netmiko error moves on to the next
record, any propagating exception ends the run. -/
def runBatch (rollback vf : Bool) :
    Option String → List (DeviceRecordRaw × Oracle) → List DeviceResult
  | _, [] => []
  | resVar, (rec, o) :: rest =>
    let pr := processDevice rollback vf rec o resVar
    match pr.1.outcome with
    | Outcome.aborted _ => [pr.1]
    | _ => pr.1 :: runBatch rollback vf pr.2 rest

/-- Session calls that are a `send_config_set` (command-set execution). -/
def isSendConfig : Event → Bool
  | Event.sendConfigSet _ _ => true
  | _ => false

/-- The recognized platform enumeration of the input format. -/
def recognizedKinds : List String :=
  ["cisco_ios", "cisco_ios_telnet", "cisco_asa", "juniper"]

/-- The cisco members of the platform enumeration. -/
def ciscoKinds : List String :=
  ["cisco_ios", "cisco_ios_telnet", "cisco_asa"]

/-- Whether an `Except` result is a normal return. -/
def exceptOk : Except PyErr String → Bool
  | Except.ok _ => true
  | Except.error _ => false

/-- Verification events expected when the verification cell is `verif`. -/
def verifEvents (verif : Option String) : List Event :=
  if truthy verif then [Event.sendCommand (verif.getD "")] else []

/-- An all-successful oracle used for concrete runs. -/
def okOracle : Oracle :=
  ⟨none, none, Except.ok "done", Except.ok "proof", none, none, Except.ok "y"⟩

/-! ## Helper lemmas -/

theorem ask_to_save_yes (a : String) : (ask_to_save a == some "y") = (a == "y") := by
  unfold ask_to_save
  by_cases h : pyLower a == "y"
  · simp only [h, if_true]
    rfl
  · simp only [h, Bool.false_eq_true, if_false]
    cases hb : a == "y"
    · rfl
    · have : a = "y" := eq_of_beq hb
      subst this
      exact absurd h (by decide)

theorem disconnectStep_events (h : String) (o : Oracle) (evs : List Event)
    (lgs : List String) (rv : Option String) :
    (disconnectStep h o evs lgs rv).1.1 = evs ++ [Event.disconnect] := by
  unfold disconnectStep
  cases o.disconnectR <;> rfl

theorem wrapBody_caught (t : List Event × List String × Option PyErr) (n : NetErr)
    (hc : (wrapBody t).outcome = Outcome.caught n) :
    "Failed to connect" ∈ (wrapBody t).logs
    ∧ succeeded (wrapBody t) = false
    ∧ (wrapBody t).events = t.1
    ∧ t.2.2 = some (PyErr.net n) := by
  obtain ⟨ev, lg, err⟩ := t
  match err with
  | none => simp [wrapBody] at hc
  | some (PyErr.net m) =>
    simp only [wrapBody] at hc ⊢
    cases hc
    simp [succeeded]
  | some PyErr.nameError => simp [wrapBody] at hc
  | some PyErr.typeError => simp [wrapBody] at hc
  | some PyErr.keyboardInterrupt => simp [wrapBody] at hc
  | some PyErr.other => simp [wrapBody] at hc

theorem runBatch_cons_continue (rb vf : Bool) (rec : DeviceRecordRaw) (o : Oracle)
    (rv : Option String) (rest : List (DeviceRecordRaw × Oracle))
    (h : ∀ e, (processDevice rb vf rec o rv).1.outcome ≠ Outcome.aborted e) :
    runBatch rb vf rv ((rec, o) :: rest)
      = (processDevice rb vf rec o rv).1
        :: runBatch rb vf (processDevice rb vf rec o rv).2 rest := by
  cases ho : (processDevice rb vf rec o rv).1.outcome with
  | completed => simp [runBatch, ho]
  | caught n => simp [runBatch, ho]
  | aborted e => exact absurd ho (h e)

theorem runBatch_cons_abort (rb vf : Bool) (rec : DeviceRecordRaw) (o : Oracle)
    (rv : Option String) (rest : List (DeviceRecordRaw × Oracle)) (e : PyErr)
    (h : (processDevice rb vf rec o rv).1.outcome = Outcome.aborted e) :
    runBatch rb vf rv ((rec, o) :: rest) = [(processDevice rb vf rec o rv).1] := by
  simp [runBatch, h]

theorem filter_isSendConfig_save_now (dt : String) :
    (save_now dt).filter isSendConfig = [] := by
  unfold save_now
  split
  · rfl
  · split <;> rfl

theorem filter_isSendConfig_single_prompt :
    List.filter isSendConfig [Event.promptSave] = [] := rfl

theorem filter_isSendConfig_single_disc :
    List.filter isSendConfig [Event.disconnect] = [] := rfl

theorem filter_isSendConfig_single_sendCmd (c : String) :
    List.filter isSendConfig [Event.sendCommand c] = [] := rfl

theorem filter_isSendConfig_disconnectStep (h : String) (o : Oracle)
    (evs : List Event) (lgs : List String) (rv : Option String) :
    ((disconnectStep h o evs lgs rv).1.1).filter isSendConfig = evs.filter isSendConfig := by
  rw [disconnectStep_events]
  simp [List.filter_append, filter_isSendConfig_single_disc]

theorem filter_isSendConfig_doSave (h dt : String) (o : Oracle) (evs : List Event)
    (lgs : List String) (sl : String) (rv : Option String) :
    ((doSave h dt o evs lgs sl rv).1.1).filter isSendConfig = evs.filter isSendConfig := by
  have hsn := filter_isSendConfig_save_now dt
  unfold doSave
  cases h1 : save_now dt with
  | nil => cases h2 : o.saveR <;> simp [filter_isSendConfig_disconnectStep]
  | cons a as =>
    rw [h1] at hsn
    cases h2 : o.saveR <;>
      simp [filter_isSendConfig_disconnectStep, List.filter_append, hsn]

theorem filter_isSendConfig_saveStep (vf : Bool) (h dt : String) (o : Oracle)
    (evs : List Event) (lgs : List String) (rv : Option String) :
    ((saveStep vf h dt o evs lgs rv).1.1).filter isSendConfig = evs.filter isSendConfig := by
  unfold saveStep
  cases vf with
  | false => simp [filter_isSendConfig_doSave]
  | true =>
    cases han : o.answerR with
    | error e =>
      simp [han, List.filter_append, filter_isSendConfig_single_prompt]
    | ok a =>
      by_cases ha : (ask_to_save a == some "y") = true
      · simp [han, ha, filter_isSendConfig_doSave, List.filter_append,
          filter_isSendConfig_single_prompt]
      · simp [han, ha, filter_isSendConfig_disconnectStep, List.filter_append,
          filter_isSendConfig_single_prompt]

theorem filter_isSendConfig_afterExec (vf : Bool) (h dt : String)
    (verif : Option String) (o : Oracle) (evs : List Event) (lgs : List String)
    (result : String) (rv : Option String) :
    ((afterExec vf h dt verif o evs lgs result rv).1.1).filter isSendConfig
      = evs.filter isSendConfig := by
  unfold afterExec
  by_cases ht : truthy verif = true
  · cases hv : o.verifyR with
    | error e => simp [ht, hv, List.filter_append, filter_isSendConfig_single_sendCmd]
    | ok p =>
      simp [ht, hv, filter_isSendConfig_saveStep, List.filter_append,
        filter_isSendConfig_single_sendCmd]
  · simp [ht, filter_isSendConfig_saveStep]

theorem saveStep_true_not_y (h dt : String) (o : Oracle) (evs : List Event)
    (lgs : List String) (rv : Option String) (a : String)
    (han : o.answerR = Except.ok a)
    (hne : (a == "y") = false) (hdisc : o.disconnectR = none) :
    saveStep true h dt o evs lgs rv
      = (((evs ++ [Event.promptSave]) ++ [Event.disconnect],
          (lgs ++ ["Changes NOT saved, roll back or reboot"]) ++ ["Disconnecting from " ++ h],
          none), rv) := by
  unfold saveStep
  simp only [han, ask_to_save_yes, hne, Bool.false_eq_true, if_false, if_true]
  unfold disconnectStep
  rw [hdisc]

theorem saveStep_true_y (h dt : String) (o : Oracle) (evs : List Event)
    (lgs : List String) (rv : Option String) (a : String)
    (han : o.answerR = Except.ok a)
    (hy : (a == "y") = true) (hsave : o.saveR = none) (hdisc : o.disconnectR = none) :
    (saveStep true h dt o evs lgs rv).1.1
      = evs ++ [Event.promptSave] ++ save_now dt ++ [Event.disconnect]
    ∧ (saveStep true h dt o evs lgs rv).1.2.2 = none := by
  unfold saveStep
  simp only [han, ask_to_save_yes, hy, if_true]
  unfold doSave
  cases h1 : save_now dt with
  | nil => simp [disconnectStep, hdisc]
  | cons a2 as => simp [hsave, disconnectStep, hdisc]

theorem saveStep_true_interrupt (h dt : String) (o : Oracle) (evs : List Event)
    (lgs : List String) (rv : Option String) (e : PyErr)
    (han : o.answerR = Except.error e) :
    saveStep true h dt o evs lgs rv
      = ((evs ++ [Event.promptSave], lgs, some e), rv) := by
  unfold saveStep
  simp only [han, if_true]

theorem saveStep_false_sub (h dt : String) (o : Oracle) (evs : List Event)
    (lgs : List String) (rv : Option String)
    (hsave : o.saveR = none) (hdisc : o.disconnectR = none) :
    (saveStep false h dt o evs lgs rv).1.1
      = evs ++ save_now dt ++ [Event.disconnect]
    ∧ (saveStep false h dt o evs lgs rv).1.2.2 = none
    ∧ ("Saved changes on " ++ h) ∈ (saveStep false h dt o evs lgs rv).1.2.1 := by
  unfold saveStep
  simp only [Bool.false_eq_true, if_false]
  unfold doSave
  cases h1 : save_now dt with
  | nil => simp [disconnectStep, hdisc]
  | cons a as => simp [hsave, disconnectStep, hdisc]

theorem afterExec_true_paths (h dt : String) (verif : Option String) (o : Oracle)
    (evs : List Event) (lgs : List String) (r : String) (rv : Option String)
    (a : String) (han : o.answerR = Except.ok a)
    (hv : truthy verif = false ∨ exceptOk o.verifyR = true)
    (hsave : o.saveR = none) (hdisc : o.disconnectR = none) :
    ((a == "y") = false →
      (afterExec true h dt verif o evs lgs r rv).1.1
        = evs ++ verifEvents verif ++ [Event.promptSave] ++ [Event.disconnect]
      ∧ "Changes NOT saved, roll back or reboot" ∈ (afterExec true h dt verif o evs lgs r rv).1.2.1
      ∧ (afterExec true h dt verif o evs lgs r rv).1.2.2 = none)
    ∧ ((a == "y") = true →
      (afterExec true h dt verif o evs lgs r rv).1.1
        = evs ++ verifEvents verif ++ [Event.promptSave] ++ save_now dt ++ [Event.disconnect]
      ∧ (afterExec true h dt verif o evs lgs r rv).1.2.2 = none) := by
  unfold afterExec
  by_cases ht : truthy verif = true
  · have hok : exceptOk o.verifyR = true := by
      rcases hv with h0 | hok
      · rw [ht] at h0; cases h0
      · exact hok
    cases hvr : o.verifyR with
    | error e => rw [hvr] at hok; simp [exceptOk] at hok
    | ok p =>
      simp only [ht, if_true, hvr]
      constructor
      · intro hne
        have := saveStep_true_not_y h dt o (evs ++ [Event.sendCommand (verif.getD "")])
          ((lgs ++ ["Actions: \n" ++ indentem r]) ++ [verifLog (verif.getD "") p]) rv a han hne hdisc
        rw [this]
        simp [verifEvents, ht]
      · intro hy
        have := saveStep_true_y h dt o (evs ++ [Event.sendCommand (verif.getD "")])
          ((lgs ++ ["Actions: \n" ++ indentem r]) ++ [verifLog (verif.getD "") p]) rv a han hy hsave hdisc
        rw [this.1]
        refine ⟨by simp [verifEvents, ht], this.2⟩
  · have ht' : truthy verif = false := by
      cases h0 : truthy verif
      · rfl
      · exact absurd h0 ht
    simp only [ht', Bool.false_eq_true, if_false]
    constructor
    · intro hne
      have := saveStep_true_not_y h dt o evs (lgs ++ ["Actions: \n" ++ indentem r]) rv a han hne hdisc
      rw [this]
      simp [verifEvents, ht']
    · intro hy
      have := saveStep_true_y h dt o evs (lgs ++ ["Actions: \n" ++ indentem r]) rv a han hy hsave hdisc
      rw [this.1]
      refine ⟨by simp [verifEvents, ht'], this.2⟩

theorem afterExec_true_interrupt (h dt : String) (verif : Option String) (o : Oracle)
    (evs : List Event) (lgs : List String) (r : String) (rv : Option String) (e : PyErr)
    (hv : truthy verif = false ∨ exceptOk o.verifyR = true)
    (han : o.answerR = Except.error e) :
    (afterExec true h dt verif o evs lgs r rv).1.1
      = evs ++ verifEvents verif ++ [Event.promptSave]
    ∧ (afterExec true h dt verif o evs lgs r rv).1.2.2 = some e := by
  unfold afterExec
  by_cases ht : truthy verif = true
  · have hok : exceptOk o.verifyR = true := by
      rcases hv with h0 | hok
      · rw [ht] at h0; cases h0
      · exact hok
    cases hvr : o.verifyR with
    | error e2 => rw [hvr] at hok; simp [exceptOk] at hok
    | ok p =>
      simp only [ht, if_true, hvr]
      have := saveStep_true_interrupt h dt o (evs ++ [Event.sendCommand (verif.getD "")])
        ((lgs ++ ["Actions: \n" ++ indentem r]) ++ [verifLog (verif.getD "") p]) rv e han
      rw [this]
      exact ⟨by simp [verifEvents, ht], rfl⟩
  · have ht' : truthy verif = false := by
      cases h0 : truthy verif
      · rfl
      · exact absurd h0 ht
    simp only [ht', Bool.false_eq_true, if_false]
    have := saveStep_true_interrupt h dt o evs (lgs ++ ["Actions: \n" ++ indentem r]) rv e han
    rw [this]
    exact ⟨by simp [verifEvents, ht'], rfl⟩

theorem wrapBody_interrupt (t : List Event × List String × Option PyErr)
    (hi : t.2.2 = some PyErr.keyboardInterrupt) :
    wrapBody t = ⟨t.1, t.2.1, Outcome.aborted PyErr.keyboardInterrupt⟩ := by
  obtain ⟨ev, lg, err⟩ := t
  simp only at hi
  subst hi
  rfl

theorem wrapBody_none (t : List Event × List String × Option PyErr)
    (hn : t.2.2 = none) : wrapBody t = ⟨t.1, t.2.1, Outcome.completed⟩ := by
  obtain ⟨ev, lg, err⟩ := t
  simp only at hn
  subst hn
  rfl

theorem wrapBody_events (t : List Event × List String × Option PyErr) :
    (wrapBody t).events = t.1 := by
  obtain ⟨ev, lg, err⟩ := t
  match err with
  | none => rfl
  | some (PyErr.net n) => rfl
  | some PyErr.nameError => rfl
  | some PyErr.typeError => rfl
  | some PyErr.keyboardInterrupt => rfl
  | some PyErr.other => rfl

theorem afterExec_false_path (h dt : String) (verif : Option String) (o : Oracle)
    (evs : List Event) (lgs : List String) (r : String) (rv : Option String)
    (hv : truthy verif = false ∨ exceptOk o.verifyR = true)
    (hsave : o.saveR = none) (hdisc : o.disconnectR = none) :
    (afterExec false h dt verif o evs lgs r rv).1.1
      = evs ++ verifEvents verif ++ save_now dt ++ [Event.disconnect]
    ∧ (afterExec false h dt verif o evs lgs r rv).1.2.2 = none
    ∧ ("Saved changes on " ++ h) ∈ (afterExec false h dt verif o evs lgs r rv).1.2.1 := by
  unfold afterExec
  by_cases ht : truthy verif = true
  · have hok : exceptOk o.verifyR = true := by
      rcases hv with h0 | hok
      · rw [ht] at h0; cases h0
      · exact hok
    cases hvr : o.verifyR with
    | error e => rw [hvr] at hok; simp [exceptOk] at hok
    | ok p =>
      simp only [ht, if_true, hvr]
      have := saveStep_false_sub h dt o (evs ++ [Event.sendCommand (verif.getD "")])
        ((lgs ++ ["Actions: \n" ++ indentem r]) ++ [verifLog (verif.getD "") p]) rv hsave hdisc
      refine ⟨?_, this.2.1, this.2.2⟩
      rw [this.1]
      simp [verifEvents, ht]
  · have ht' : truthy verif = false := by
      cases h0 : truthy verif
      · rfl
      · exact absurd h0 ht
    simp only [ht', Bool.false_eq_true, if_false]
    have := saveStep_false_sub h dt o evs (lgs ++ ["Actions: \n" ++ indentem r]) rv hsave hdisc
    refine ⟨?_, this.2.1, this.2.2⟩
    rw [this.1]
    simp [verifEvents, ht']

theorem promptSave_not_in_save_now (dt : String) :
    Event.promptSave ∉ save_now dt := by
  unfold save_now
  split
  · simp
  · split <;> simp

theorem disconnectStep_prompt (h : String) (o : Oracle) (evs : List Event)
    (lgs : List String) (rv : Option String)
    (hm : Event.promptSave ∈ (disconnectStep h o evs lgs rv).1.1) :
    Event.promptSave ∈ evs := by
  rw [disconnectStep_events] at hm
  rcases List.mem_append.mp hm with h1 | h1
  · exact h1
  · simp at h1

theorem doSave_prompt (h dt : String) (o : Oracle) (evs : List Event)
    (lgs : List String) (sl : String) (rv : Option String)
    (hm : Event.promptSave ∈ (doSave h dt o evs lgs sl rv).1.1) :
    Event.promptSave ∈ evs := by
  have hsn := promptSave_not_in_save_now dt
  unfold doSave at hm
  cases h1 : save_now dt with
  | nil =>
    rw [h1] at hm
    cases h2 : o.saveR <;> rw [h2] at hm <;> exact disconnectStep_prompt _ _ _ _ _ hm
  | cons a as =>
    rw [h1] at hm hsn
    cases h2 : o.saveR <;> rw [h2] at hm
    · have := disconnectStep_prompt _ _ _ _ _ hm
      rcases List.mem_append.mp this with h3 | h3
      · exact h3
      · exact absurd h3 hsn
    · rcases List.mem_append.mp hm with h3 | h3
      · exact h3
      · exact absurd h3 hsn

theorem saveStep_false_prompt (h dt : String) (o : Oracle) (evs : List Event)
    (lgs : List String) (rv : Option String)
    (hm : Event.promptSave ∈ (saveStep false h dt o evs lgs rv).1.1) :
    Event.promptSave ∈ evs := by
  unfold saveStep at hm
  simp only [Bool.false_eq_true, if_false] at hm
  exact doSave_prompt _ _ _ _ _ _ _ hm

theorem afterExec_false_prompt (h dt : String) (verif : Option String) (o : Oracle)
    (evs : List Event) (lgs : List String) (r : String) (rv : Option String)
    (hm : Event.promptSave ∈ (afterExec false h dt verif o evs lgs r rv).1.1) :
    Event.promptSave ∈ evs := by
  unfold afterExec at hm
  by_cases ht : truthy verif = true
  · rw [ht] at hm
    simp only [if_true] at hm
    cases hvr : o.verifyR with
    | error e =>
      rw [hvr] at hm
      rcases List.mem_append.mp hm with h1 | h1
      · exact h1
      · simp at h1
    | ok p =>
      rw [hvr] at hm
      have := saveStep_false_prompt _ _ _ _ _ _ hm
      rcases List.mem_append.mp this with h1 | h1
      · exact h1
      · simp at h1
  · have ht' : truthy verif = false := by
      cases h0 : truthy verif
      · rfl
      · exact absurd h0 ht
    rw [ht'] at hm
    simp only [Bool.false_eq_true, if_false] at hm
    exact saveStep_false_prompt _ _ _ _ _ _ hm

theorem deviceBody_false_prompt (rb : Bool) (h dt : String)
    (impl rbc verif : Option String) (o : Oracle) (rv : Option String) :
    Event.promptSave ∉ (deviceBody rb false h dt impl rbc verif o rv).1.1 := by
  intro hm
  unfold deviceBody at hm
  cases h1 : o.connectR with
  | some e => rw [h1] at hm; simp at hm
  | none =>
    rw [h1] at hm
    cases h2 : o.enableR with
    | some e => rw [h2] at hm; simp at hm
    | none =>
      rw [h2] at hm
      cases h3 : chosenSend rb dt impl rbc with
      | none =>
        rw [h3] at hm
        cases h4 : rv with
        | none => rw [h4] at hm; simp at hm
        | some r =>
          rw [h4] at hm
          have := afterExec_false_prompt _ _ _ _ _ _ _ _ hm
          simp at this
      | some p =>
        obtain ⟨cmds, em⟩ := p
        rw [h3] at hm
        cases h5 : o.sendR with
        | error e => rw [h5] at hm; simp at hm
        | ok r =>
          rw [h5] at hm
          have := afterExec_false_prompt _ _ _ _ _ _ _ _ hm
          simp at this

theorem processDevice_false_prompt (rb : Bool) (rec : DeviceRecordRaw)
    (o : Oracle) (rv : Option String) :
    Event.promptSave ∉ (processDevice rb false rec o rv).1.events := by
  intro hm
  obtain ⟨oh, odt, oi, orr, ov⟩ := rec
  match oh, odt with
  | none, none => simp [processDevice] at hm
  | none, some dt => simp [processDevice] at hm
  | some h, none => simp [processDevice] at hm
  | some h, some dt =>
    simp only [processDevice] at hm
    rw [wrapBody_events] at hm
    exact deviceBody_false_prompt rb h dt oi orr ov o rv hm

theorem deviceBody_filter_of_sel (rb vf : Bool) (h dt : String)
    (impl rbc verif : Option String) (o : Oracle) (resVar : Option String)
    (cmds : Option String) (em : Bool)
    (hc : o.connectR = none) (he : o.enableR = none)
    (hsel : chosenSend rb dt impl rbc = some (cmds, em)) :
    ((deviceBody rb vf h dt impl rbc verif o resVar).1.1).filter isSendConfig
      = [Event.sendConfigSet cmds em] := by
  simp only [deviceBody, hc, he, hsel]
  cases hs : o.sendR with
  | error e => rfl
  | ok r => rw [filter_isSendConfig_afterExec]; rfl

theorem disconnectStep_has_disc (h : String) (o : Oracle) (evs : List Event)
    (lgs : List String) (rv : Option String) :
    Event.disconnect ∈ (disconnectStep h o evs lgs rv).1.1 := by
  rw [disconnectStep_events]
  simp

theorem doSave_completed_disc (h dt : String) (o : Oracle) (evs : List Event)
    (lgs : List String) (sl : String) (rv : Option String)
    (hn : (doSave h dt o evs lgs sl rv).1.2.2 = none) :
    Event.disconnect ∈ (doSave h dt o evs lgs sl rv).1.1 := by
  unfold doSave at hn ⊢
  revert hn
  split
  · intro hn
    exact disconnectStep_has_disc _ _ _ _ _
  · intro hn
    exact absurd hn (by simp)
  · intro hn
    exact disconnectStep_has_disc _ _ _ _ _

theorem saveStep_completed_disc (vf : Bool) (h dt : String) (o : Oracle)
    (evs : List Event) (lgs : List String) (rv : Option String)
    (hn : (saveStep vf h dt o evs lgs rv).1.2.2 = none) :
    Event.disconnect ∈ (saveStep vf h dt o evs lgs rv).1.1 := by
  unfold saveStep at hn ⊢
  cases vf with
  | false =>
    simp only [Bool.false_eq_true, if_false] at hn ⊢
    exact doSave_completed_disc _ _ _ _ _ _ _ hn
  | true =>
    simp only [if_true] at hn ⊢
    revert hn
    split
    · intro hn
      exact absurd hn (by simp)
    · split
      · intro hn
        exact doSave_completed_disc _ _ _ _ _ _ _ hn
      · intro hn
        exact disconnectStep_has_disc _ _ _ _ _

theorem afterExec_completed_disc (vf : Bool) (h dt : String)
    (verif : Option String) (o : Oracle) (evs : List Event) (lgs : List String)
    (r : String) (rv : Option String)
    (hn : (afterExec vf h dt verif o evs lgs r rv).1.2.2 = none) :
    Event.disconnect ∈ (afterExec vf h dt verif o evs lgs r rv).1.1 := by
  unfold afterExec at hn ⊢
  revert hn
  by_cases ht : truthy verif = true
  · simp only [ht, if_true]
    split
    · intro hn
      exact absurd hn (by simp)
    · intro hn
      exact saveStep_completed_disc _ _ _ _ _ _ _ hn
  · have ht' : truthy verif = false := by
      cases h0 : truthy verif
      · rfl
      · exact absurd h0 ht
    simp only [ht', Bool.false_eq_true, if_false]
    intro hn
    exact saveStep_completed_disc _ _ _ _ _ _ _ hn

theorem deviceBody_completed_disc (rb vf : Bool) (h dt : String)
    (impl rbc verif : Option String) (o : Oracle) (rv : Option String)
    (hn : (deviceBody rb vf h dt impl rbc verif o rv).1.2.2 = none) :
    Event.disconnect ∈ (deviceBody rb vf h dt impl rbc verif o rv).1.1 := by
  unfold deviceBody at hn ⊢
  revert hn
  split
  · intro hn; exact absurd hn (by simp)
  · split
    · intro hn; exact absurd hn (by simp)
    · split
      · split
        · intro hn; exact absurd hn (by simp)
        · intro hn
          exact afterExec_completed_disc _ _ _ _ _ _ _ _ _ hn
      · split
        · intro hn; exact absurd hn (by simp)
        · intro hn
          exact afterExec_completed_disc _ _ _ _ _ _ _ _ _ hn

theorem wrapBody_completed_err (t : List Event × List String × Option PyErr)
    (hc : (wrapBody t).outcome = Outcome.completed) : t.2.2 = none := by
  obtain ⟨ev, lg, err⟩ := t
  match err with
  | none => rfl
  | some (PyErr.net n) => simp [wrapBody] at hc
  | some PyErr.nameError => simp [wrapBody] at hc
  | some PyErr.typeError => simp [wrapBody] at hc
  | some PyErr.keyboardInterrupt => simp [wrapBody] at hc
  | some PyErr.other => simp [wrapBody] at hc

/-! ## Claim theorems -/

/-- C1: a device whose connection attempt raises a recognized connection
error (timeout or authentication failure) has that error caught and
logged, is never recorded as succeeded, has no further lifecycle step
attempted (its only session call is the connect attempt), and the batch
continues with the next device instead of aborting. -/
theorem conn_error_isolated (rb vf : Bool) (rec : DeviceRecordRaw) (o : Oracle)
    (resVar : Option String) (rest : List (DeviceRecordRaw × Oracle))
    (h dt : String) (n : NetErr)
    (hh : rec.host = some h) (hd : rec.device_type = some dt)
    (hc : o.connectR = some (PyErr.net n)) :
    (processDevice rb vf rec o resVar).1.outcome = Outcome.caught n
    ∧ succeeded (processDevice rb vf rec o resVar).1 = false
    ∧ "Failed to connect" ∈ (processDevice rb vf rec o resVar).1.logs
    ∧ (processDevice rb vf rec o resVar).1.events = [Event.connect h]
    ∧ runBatch rb vf resVar ((rec, o) :: rest)
        = (processDevice rb vf rec o resVar).1
          :: runBatch rb vf (processDevice rb vf rec o resVar).2 rest := by
  obtain ⟨oh, odt, oi, orr, ov⟩ := rec
  simp only at hh hd
  subst hh hd
  have hbody : (processDevice rb vf ⟨some h, some dt, oi, orr, ov⟩ o resVar).1
      = ⟨[Event.connect h], ["Failed to connect"], Outcome.caught n⟩ := by
    simp [processDevice, deviceBody, hc, wrapBody]
  refine ⟨by rw [hbody], by rw [hbody]; rfl, by rw [hbody]; simp, by rw [hbody], ?_⟩
  exact runBatch_cons_continue rb vf _ o resVar rest (by rw [hbody]; intro e hcon; cases hcon)

/-- C2 counterexample: a table whose single data row has an empty name
cell still yields one loaded record — the row is kept, not dropped, so
the record count is the count of all rows after the header, not of the
non-empty-name rows. -/
theorem empty_name_row_not_dropped :
    open_file
      [⟨some "DeviceName", some "OS_Type", some "Implementation_Cmds", some "Rollback_Cmds", none⟩,
       ⟨none, some "cisco_ios", some "cmd", some "rb", none⟩]
      = [⟨none, some "cisco_ios", some "cmd", some "rb", none⟩]
    ∧ (open_file
        [⟨some "DeviceName", some "OS_Type", some "Implementation_Cmds", some "Rollback_Cmds", none⟩,
         ⟨none, some "cisco_ios", some "cmd", some "rb", none⟩]).length ≠ 0 :=
  ⟨rfl, by decide⟩

/-- C2 amended: the header row is always skipped and every other row is
loaded, so the number of loaded records equals the number of all rows
after the header, independent of whether any name cell is empty. -/
theorem open_file_row_count (ws : List XRow) :
    (open_file ws).length = ws.length - 1 := by
  simp [open_file]

/-- C3 counterexample: a table with a row whose kind column is missing
and a row whose kind is outside the recognized enumeration loads
normally — `open_file` performs no validation and cannot fail, so no
`MalformedInputError` is ever raised before devices are contacted. -/
theorem missing_columns_load_without_error :
    open_file
      [⟨some "DeviceName", some "OS_Type", some "Implementation_Cmds", some "Rollback_Cmds", none⟩,
       ⟨some "dev1", none, none, none, none⟩,
       ⟨some "dev2", some "unrecognized_os", some "cmd", some "rb", none⟩]
      = [⟨some "dev1", none, none, none, none⟩,
         ⟨some "dev2", some "unrecognized_os", some "cmd", some "rb", none⟩] := rfl

/-- C3 amended: loading validates nothing — every row after the header,
whatever its cells hold (missing columns, unrecognized kinds), becomes a
loaded record verbatim; load-time failure does not exist in the code. -/
theorem open_file_never_validates (ws : List XRow) (r : XRow)
    (hr : r ∈ ws.drop 1) : mkRecord r ∈ open_file ws :=
  List.mem_map_of_mem mkRecord hr

/-- C3 amended witness: the row with the missing kind column is loaded. -/
theorem open_file_never_validates_witness :
    mkRecord ⟨some "dev1", none, none, none, none⟩
      ∈ open_file
        [⟨some "DeviceName", some "OS_Type", some "Implementation_Cmds", some "Rollback_Cmds", none⟩,
         ⟨some "dev1", none, none, none, none⟩] :=
  open_file_never_validates _ _ (by decide)

/-- C1 witness: concrete timeout on the connect attempt. -/
theorem conn_error_isolated_witness :
    (processDevice false false ⟨some "dev1", some "cisco_ios", some "c", some "r", none⟩
        ⟨some (PyErr.net NetErr.timeout), none, Except.ok "", Except.ok "", none, none, Except.ok ""⟩ none).1.outcome
      = Outcome.caught NetErr.timeout
    ∧ succeeded (processDevice false false ⟨some "dev1", some "cisco_ios", some "c", some "r", none⟩
        ⟨some (PyErr.net NetErr.timeout), none, Except.ok "", Except.ok "", none, none, Except.ok ""⟩ none).1 = false
    ∧ "Failed to connect" ∈ (processDevice false false ⟨some "dev1", some "cisco_ios", some "c", some "r", none⟩
        ⟨some (PyErr.net NetErr.timeout), none, Except.ok "", Except.ok "", none, none, Except.ok ""⟩ none).1.logs
    ∧ (processDevice false false ⟨some "dev1", some "cisco_ios", some "c", some "r", none⟩
        ⟨some (PyErr.net NetErr.timeout), none, Except.ok "", Except.ok "", none, none, Except.ok ""⟩ none).1.events
      = [Event.connect "dev1"]
    ∧ runBatch false false none
        [(⟨some "dev1", some "cisco_ios", some "c", some "r", none⟩,
          ⟨some (PyErr.net NetErr.timeout), none, Except.ok "", Except.ok "", none, none, Except.ok ""⟩)]
        = (processDevice false false ⟨some "dev1", some "cisco_ios", some "c", some "r", none⟩
            ⟨some (PyErr.net NetErr.timeout), none, Except.ok "", Except.ok "", none, none, Except.ok ""⟩ none).1
          :: runBatch false false
            (processDevice false false ⟨some "dev1", some "cisco_ios", some "c", some "r", none⟩
              ⟨some (PyErr.net NetErr.timeout), none, Except.ok "", Except.ok "", none, none, Except.ok ""⟩ none).2 [] :=
  conn_error_isolated false false _ _ none [] "dev1" "cisco_ios" NetErr.timeout rfl rfl rfl

/-- C4: for every device record with a recognized kind, once the Execute
step is reached exactly one command set is sent: the rollback commands
(exiting config mode) in rollback mode, else the implementation commands
(staying in config mode exactly for juniper); moreover in rollback mode
the whole device processing is invariant under the implementation-cells
value (the field is never referenced), and in forward mode it is
invariant under the rollback-cells value. -/
theorem one_command_set_sent (rb vf : Bool) (h dt : String)
    (impl impl' rbc rbc' verif : Option String) (o : Oracle) (resVar : Option String)
    (hdt : dt ∈ recognizedKinds)
    (hc : o.connectR = none) (he : o.enableR = none) :
    ((deviceBody rb vf h dt impl rbc verif o resVar).1.1).filter isSendConfig
      = [Event.sendConfigSet (if rb then rbc else impl)
          (if rb then true else strIn "cisco" dt)]
    ∧ (rb = true →
        deviceBody rb vf h dt impl rbc verif o resVar
          = deviceBody rb vf h dt impl' rbc verif o resVar)
    ∧ (rb = false →
        deviceBody rb vf h dt impl rbc verif o resVar
          = deviceBody rb vf h dt impl rbc' verif o resVar) := by
  have c1 : strIn "cisco" "cisco_ios" = true := by decide
  have c2 : strIn "cisco" "cisco_ios_telnet" = true := by decide
  have c3 : strIn "cisco" "cisco_asa" = true := by decide
  have c4 : strIn "cisco" "juniper" = false := by decide
  have c5 : strIn "juniper" "juniper" = true := by decide
  have hsel : chosenSend rb dt impl rbc
      = some (if rb then rbc else impl, if rb then true else strIn "cisco" dt) := by
    cases rb with
    | true => simp [chosenSend]
    | false =>
      simp only [recognizedKinds, List.mem_cons, List.not_mem_nil, or_false] at hdt
      rcases hdt with rfl | rfl | rfl | rfl
      · simp [chosenSend, c1]
      · simp [chosenSend, c2]
      · simp [chosenSend, c3]
      · simp [chosenSend, c4, c5]
  refine ⟨?_, ?_, ?_⟩
  · simp only [deviceBody, hc, he, hsel]
    cases hs : o.sendR with
    | error e => rfl
    | ok r => rw [filter_isSendConfig_afterExec]; rfl
  · rintro rfl
    simp [deviceBody, hc, he, chosenSend]
  · rintro rfl
    simp [deviceBody, hc, he, chosenSend]

/-- C4 witness: forward mode on a cisco_ios device sends exactly the
implementation commands with config-mode exit. -/
theorem one_command_set_sent_witness :
    ((deviceBody false false "dev1" "cisco_ios" (some "c") (some "r") none okOracle none).1.1).filter isSendConfig
      = [Event.sendConfigSet (if false then some "r" else some "c")
          (if false then true else strIn "cisco" "cisco_ios")]
    ∧ (false = true →
        deviceBody false false "dev1" "cisco_ios" (some "c") (some "r") none okOracle none
          = deviceBody false false "dev1" "cisco_ios" (some "x") (some "r") none okOracle none)
    ∧ (false = false →
        deviceBody false false "dev1" "cisco_ios" (some "c") (some "r") none okOracle none
          = deviceBody false false "dev1" "cisco_ios" (some "c") (some "q") none okOracle none) :=
  one_command_set_sent false false "dev1" "cisco_ios" (some "c") (some "x")
    (some "r") (some "q") none okOracle none (by decide) rfl rfl

/-- C5 counterexample: cancellation at the save prompt (KeyboardInterrupt
during `raw_input` in `ask_to_save`) is caught nowhere — the device is
aborted with no save and no changes-not-saved notice, and the whole
remaining run is killed, so cancellation is not treated as a plain
negative answer. -/
theorem save_prompt_interrupt_aborts_run :
    (processDevice false true ⟨some "dev1", some "cisco_ios", some "c", some "r", none⟩
        ⟨none, none, Except.ok "done", Except.ok "p", none, none,
          Except.error PyErr.keyboardInterrupt⟩ none).1.outcome
      = Outcome.aborted PyErr.keyboardInterrupt
    ∧ "Changes NOT saved, roll back or reboot"
        ∉ (processDevice false true ⟨some "dev1", some "cisco_ios", some "c", some "r", none⟩
            ⟨none, none, Except.ok "done", Except.ok "p", none, none,
              Except.error PyErr.keyboardInterrupt⟩ none).1.logs
    ∧ Event.sendCommand "write mem"
        ∉ (processDevice false true ⟨some "dev1", some "cisco_ios", some "c", some "r", none⟩
            ⟨none, none, Except.ok "done", Except.ok "p", none, none,
              Except.error PyErr.keyboardInterrupt⟩ none).1.events
    ∧ runBatch false true none
        [(⟨some "dev1", some "cisco_ios", some "c", some "r", none⟩,
          ⟨none, none, Except.ok "done", Except.ok "p", none, none,
            Except.error PyErr.keyboardInterrupt⟩),
         (⟨some "dev2", some "cisco_ios", some "c", some "r", none⟩, okOracle)]
      = [(processDevice false true ⟨some "dev1", some "cisco_ios", some "c", some "r", none⟩
          ⟨none, none, Except.ok "done", Except.ok "p", none, none,
            Except.error PyErr.keyboardInterrupt⟩ none).1] := by
  refine ⟨?_, ?_, ?_, ?_⟩ <;> decide

/-- C5 amended: with confirm-before-save set, for a device that reaches
the save decision and whose prompt returns an answer line, any answer
other than the exact string `y` (including case variants such as `Y`)
issues no save call, logs the changes-not-saved notice, and completes the
device normally; the answer `y` proceeds to the platform-specific save.
Cancellation is not among the handled answers: an interrupt raised at the
prompt propagates uncaught, no notice is logged, and it aborts the whole
remaining run. -/
theorem non_affirmative_skips_save (rb : Bool) (h dt : String)
    (impl rbc verif : Option String) (o : Oracle) (resVar : Option String)
    (cmds : Option String) (em : Bool) (r : String) (a : String)
    (rest : List (DeviceRecordRaw × Oracle))
    (hc : o.connectR = none) (he : o.enableR = none)
    (hsel : chosenSend rb dt impl rbc = some (cmds, em))
    (hs : o.sendR = Except.ok r)
    (hv : truthy verif = false ∨ exceptOk o.verifyR = true)
    (hsave : o.saveR = none) (hdisc : o.disconnectR = none) :
    (o.answerR = Except.ok a → a ≠ "y" →
      (processDevice rb true ⟨some h, some dt, impl, rbc, verif⟩ o resVar).1.events
        = [Event.connect h, Event.enable, Event.sendConfigSet cmds em]
          ++ verifEvents verif ++ [Event.promptSave] ++ [Event.disconnect]
      ∧ "Changes NOT saved, roll back or reboot"
          ∈ (processDevice rb true ⟨some h, some dt, impl, rbc, verif⟩ o resVar).1.logs
      ∧ (processDevice rb true ⟨some h, some dt, impl, rbc, verif⟩ o resVar).1.outcome
          = Outcome.completed)
    ∧ (o.answerR = Except.ok a → a = "y" →
      (processDevice rb true ⟨some h, some dt, impl, rbc, verif⟩ o resVar).1.events
        = [Event.connect h, Event.enable, Event.sendConfigSet cmds em]
          ++ verifEvents verif ++ [Event.promptSave] ++ save_now dt ++ [Event.disconnect]
      ∧ (processDevice rb true ⟨some h, some dt, impl, rbc, verif⟩ o resVar).1.outcome
          = Outcome.completed)
    ∧ (o.answerR = Except.error PyErr.keyboardInterrupt →
      (processDevice rb true ⟨some h, some dt, impl, rbc, verif⟩ o resVar).1.events
        = [Event.connect h, Event.enable, Event.sendConfigSet cmds em]
          ++ verifEvents verif ++ [Event.promptSave]
      ∧ (processDevice rb true ⟨some h, some dt, impl, rbc, verif⟩ o resVar).1.outcome
          = Outcome.aborted PyErr.keyboardInterrupt
      ∧ runBatch rb true resVar ((⟨some h, some dt, impl, rbc, verif⟩, o) :: rest)
          = [(processDevice rb true ⟨some h, some dt, impl, rbc, verif⟩ o resVar).1]) := by
  have hbody : processDevice rb true ⟨some h, some dt, impl, rbc, verif⟩ o resVar
      = (wrapBody (afterExec true h dt verif o
          [Event.connect h, Event.enable, Event.sendConfigSet cmds em]
          ["Successfully connected to " ++ h] r (some r)).1,
        (afterExec true h dt verif o
          [Event.connect h, Event.enable, Event.sendConfigSet cmds em]
          ["Successfully connected to " ++ h] r (some r)).2) := by
    simp only [processDevice, deviceBody, hc, he, hsel, hs]
  refine ⟨?_, ?_, ?_⟩
  · intro han hne
    have hne' : (a == "y") = false := beq_eq_false_iff_ne.mpr hne
    obtain ⟨hev, hlog, herr⟩ := (afterExec_true_paths h dt verif o
      [Event.connect h, Event.enable, Event.sendConfigSet cmds em]
      ["Successfully connected to " ++ h] r (some r) a han hv hsave hdisc).1 hne'
    rw [hbody, wrapBody_none _ herr]
    exact ⟨hev, hlog, rfl⟩
  · intro han hy
    have hy' : (a == "y") = true := by
      rw [beq_iff_eq]; exact hy
    obtain ⟨hev, herr⟩ := (afterExec_true_paths h dt verif o
      [Event.connect h, Event.enable, Event.sendConfigSet cmds em]
      ["Successfully connected to " ++ h] r (some r) a han hv hsave hdisc).2 hy'
    rw [hbody, wrapBody_none _ herr]
    exact ⟨hev, rfl⟩
  · intro han
    obtain ⟨hev, herr⟩ := afterExec_true_interrupt h dt verif o
      [Event.connect h, Event.enable, Event.sendConfigSet cmds em]
      ["Successfully connected to " ++ h] r (some r) PyErr.keyboardInterrupt hv han
    have hout : (processDevice rb true ⟨some h, some dt, impl, rbc, verif⟩ o resVar).1.outcome
        = Outcome.aborted PyErr.keyboardInterrupt := by
      rw [hbody, wrapBody_interrupt _ herr]
    refine ⟨?_, hout, runBatch_cons_abort rb true _ o resVar rest PyErr.keyboardInterrupt hout⟩
    rw [hbody, wrapBody_interrupt _ herr]
    exact hev

/-- C5 amended witness: the uppercase answer `Y` skips the save on a
cisco_ios device that reached the save decision. -/
theorem non_affirmative_skips_save_witness :
    ((⟨none, none, Except.ok "done", Except.ok "p", none, none, Except.ok "Y"⟩ : Oracle).answerR
        = Except.ok "Y" → "Y" ≠ "y" →
      (processDevice false true ⟨some "dev1", some "cisco_ios", some "c", some "r", none⟩
          ⟨none, none, Except.ok "done", Except.ok "p", none, none, Except.ok "Y"⟩ none).1.events
        = [Event.connect "dev1", Event.enable, Event.sendConfigSet (some "c") true]
          ++ verifEvents none ++ [Event.promptSave] ++ [Event.disconnect]
      ∧ "Changes NOT saved, roll back or reboot"
          ∈ (processDevice false true ⟨some "dev1", some "cisco_ios", some "c", some "r", none⟩
              ⟨none, none, Except.ok "done", Except.ok "p", none, none, Except.ok "Y"⟩ none).1.logs
      ∧ (processDevice false true ⟨some "dev1", some "cisco_ios", some "c", some "r", none⟩
          ⟨none, none, Except.ok "done", Except.ok "p", none, none, Except.ok "Y"⟩ none).1.outcome
          = Outcome.completed)
    ∧ ((⟨none, none, Except.ok "done", Except.ok "p", none, none, Except.ok "Y"⟩ : Oracle).answerR
        = Except.ok "Y" → "Y" = "y" →
      (processDevice false true ⟨some "dev1", some "cisco_ios", some "c", some "r", none⟩
          ⟨none, none, Except.ok "done", Except.ok "p", none, none, Except.ok "Y"⟩ none).1.events
        = [Event.connect "dev1", Event.enable, Event.sendConfigSet (some "c") true]
          ++ verifEvents none ++ [Event.promptSave] ++ save_now "cisco_ios" ++ [Event.disconnect]
      ∧ (processDevice false true ⟨some "dev1", some "cisco_ios", some "c", some "r", none⟩
          ⟨none, none, Except.ok "done", Except.ok "p", none, none, Except.ok "Y"⟩ none).1.outcome
          = Outcome.completed)
    ∧ ((⟨none, none, Except.ok "done", Except.ok "p", none, none, Except.ok "Y"⟩ : Oracle).answerR
        = Except.error PyErr.keyboardInterrupt →
      (processDevice false true ⟨some "dev1", some "cisco_ios", some "c", some "r", none⟩
          ⟨none, none, Except.ok "done", Except.ok "p", none, none, Except.ok "Y"⟩ none).1.events
        = [Event.connect "dev1", Event.enable, Event.sendConfigSet (some "c") true]
          ++ verifEvents none ++ [Event.promptSave]
      ∧ (processDevice false true ⟨some "dev1", some "cisco_ios", some "c", some "r", none⟩
          ⟨none, none, Except.ok "done", Except.ok "p", none, none, Except.ok "Y"⟩ none).1.outcome
          = Outcome.aborted PyErr.keyboardInterrupt
      ∧ runBatch false true none
          [(⟨some "dev1", some "cisco_ios", some "c", some "r", none⟩,
            ⟨none, none, Except.ok "done", Except.ok "p", none, none, Except.ok "Y"⟩)]
          = [(processDevice false true ⟨some "dev1", some "cisco_ios", some "c", some "r", none⟩
              ⟨none, none, Except.ok "done", Except.ok "p", none, none, Except.ok "Y"⟩ none).1]) :=
  non_affirmative_skips_save false "dev1" "cisco_ios" (some "c") (some "r") none
    ⟨none, none, Except.ok "done", Except.ok "p", none, none, Except.ok "Y"⟩ none
    (some "c") true "done" "Y" [] rfl rfl (by decide) rfl (Or.inl rfl) rfl rfl

/-- C6 counterexample: without confirm-before-save, a device that
completed the Execute step successfully (its transcript is logged) but
whose verification command raises never has any save issued and is never
logged as saved — the save is not unconditional for Execute-successful
devices. -/
theorem execute_ok_verify_error_not_saved :
    "Actions: \n    out"
      ∈ (processDevice false false ⟨some "dev6", some "cisco_asa", some "c", some "r", some "show run"⟩
          ⟨none, none, Except.ok "out", Except.error (PyErr.net NetErr.timeout), none, none,
            Except.ok ""⟩ none).1.logs
    ∧ Event.sendCommand "write mem"
      ∉ (processDevice false false ⟨some "dev6", some "cisco_asa", some "c", some "r", some "show run"⟩
          ⟨none, none, Except.ok "out", Except.error (PyErr.net NetErr.timeout), none, none,
            Except.ok ""⟩ none).1.events
    ∧ Event.commit true
      ∉ (processDevice false false ⟨some "dev6", some "cisco_asa", some "c", some "r", some "show run"⟩
          ⟨none, none, Except.ok "out", Except.error (PyErr.net NetErr.timeout), none, none,
            Except.ok ""⟩ none).1.events
    ∧ ("Saved changes on " ++ "dev6")
      ∉ (processDevice false false ⟨some "dev6", some "cisco_asa", some "c", some "r", some "show run"⟩
          ⟨none, none, Except.ok "out", Except.error (PyErr.net NetErr.timeout), none, none,
            Except.ok ""⟩ none).1.logs
    ∧ succeeded (processDevice false false ⟨some "dev6", some "cisco_asa", some "c", some "r", some "show run"⟩
          ⟨none, none, Except.ok "out", Except.error (PyErr.net NetErr.timeout), none, none,
            Except.ok ""⟩ none).1 = false := by
  refine ⟨?_, ?_, ?_, ?_, ?_⟩ <;> decide

/-- C6 amended: without confirm-before-save, every device with a
recognized kind that completed the Execute step and whose verification
step (when present) did not raise has the platform-specific save issued
unconditionally (a non-empty save action), is logged as saved, completes
normally, and no confirmation prompt is ever issued — neither for it nor
for any device processed without the flag; a device whose verification
raises never reaches the save at all. -/
theorem silent_save_when_no_confirm (rb : Bool) (h dt : String)
    (impl rbc verif : Option String) (o : Oracle) (resVar : Option String)
    (cmds : Option String) (em : Bool) (r : String)
    (rb' : Bool) (rec' : DeviceRecordRaw) (o' : Oracle) (rv' : Option String)
    (hdt : dt ∈ recognizedKinds)
    (hc : o.connectR = none) (he : o.enableR = none)
    (hsel : chosenSend rb dt impl rbc = some (cmds, em))
    (hs : o.sendR = Except.ok r)
    (hv : truthy verif = false ∨ exceptOk o.verifyR = true)
    (hsave : o.saveR = none) (hdisc : o.disconnectR = none) :
    (processDevice rb false ⟨some h, some dt, impl, rbc, verif⟩ o resVar).1.events
      = [Event.connect h, Event.enable, Event.sendConfigSet cmds em]
        ++ verifEvents verif ++ save_now dt ++ [Event.disconnect]
    ∧ save_now dt ≠ []
    ∧ ("Saved changes on " ++ h)
        ∈ (processDevice rb false ⟨some h, some dt, impl, rbc, verif⟩ o resVar).1.logs
    ∧ (processDevice rb false ⟨some h, some dt, impl, rbc, verif⟩ o resVar).1.outcome
        = Outcome.completed
    ∧ Event.promptSave ∉ (processDevice rb false ⟨some h, some dt, impl, rbc, verif⟩ o resVar).1.events
    ∧ Event.promptSave ∉ (processDevice rb' false rec' o' rv').1.events := by
  have hbody : processDevice rb false ⟨some h, some dt, impl, rbc, verif⟩ o resVar
      = (wrapBody (afterExec false h dt verif o
          [Event.connect h, Event.enable, Event.sendConfigSet cmds em]
          ["Successfully connected to " ++ h] r (some r)).1,
        (afterExec false h dt verif o
          [Event.connect h, Event.enable, Event.sendConfigSet cmds em]
          ["Successfully connected to " ++ h] r (some r)).2) := by
    simp only [processDevice, deviceBody, hc, he, hsel, hs]
  obtain ⟨hev, herr, hlog⟩ := afterExec_false_path h dt verif o
    [Event.connect h, Event.enable, Event.sendConfigSet cmds em]
    ["Successfully connected to " ++ h] r (some r) hv hsave hdisc
  have hsn : save_now dt ≠ [] := by
    simp only [recognizedKinds, List.mem_cons, List.not_mem_nil, or_false] at hdt
    rcases hdt with rfl | rfl | rfl | rfl <;> decide
  refine ⟨?_, hsn, ?_, ?_, ?_, ?_⟩
  · rw [hbody, wrapBody_none _ herr]
    exact hev
  · rw [hbody, wrapBody_none _ herr]
    exact hlog
  · rw [hbody, wrapBody_none _ herr]
  · exact processDevice_false_prompt rb _ o resVar
  · exact processDevice_false_prompt rb' rec' o' rv'

/-- C6 witness: a juniper device with a verification command, run without
the confirm flag, is saved silently with no prompt. -/
theorem silent_save_when_no_confirm_witness :
    (processDevice false false ⟨some "dev1", some "juniper", some "c", some "r", some "show ver"⟩
        ⟨none, none, Except.ok "done", Except.ok "p", none, none, Except.ok ""⟩ none).1.events
      = [Event.connect "dev1", Event.enable, Event.sendConfigSet (some "c") false]
        ++ verifEvents (some "show ver") ++ save_now "juniper" ++ [Event.disconnect]
    ∧ save_now "juniper" ≠ []
    ∧ ("Saved changes on " ++ "dev1")
        ∈ (processDevice false false ⟨some "dev1", some "juniper", some "c", some "r", some "show ver"⟩
            ⟨none, none, Except.ok "done", Except.ok "p", none, none, Except.ok ""⟩ none).1.logs
    ∧ (processDevice false false ⟨some "dev1", some "juniper", some "c", some "r", some "show ver"⟩
        ⟨none, none, Except.ok "done", Except.ok "p", none, none, Except.ok ""⟩ none).1.outcome
        = Outcome.completed
    ∧ Event.promptSave ∉ (processDevice false false ⟨some "dev1", some "juniper", some "c", some "r", some "show ver"⟩
        ⟨none, none, Except.ok "done", Except.ok "p", none, none, Except.ok ""⟩ none).1.events
    ∧ Event.promptSave ∉ (processDevice true false ⟨some "d9", some "cisco_ios", some "c", some "r", none⟩
        okOracle none).1.events :=
  silent_save_when_no_confirm false "dev1" "juniper" (some "c") (some "r") (some "show ver")
    ⟨none, none, Except.ok "done", Except.ok "p", none, none, Except.ok ""⟩ none
    (some "c") false "done" true ⟨some "d9", some "cisco_ios", some "c", some "r", none⟩
    okOracle none (by decide) rfl rfl (by decide) rfl (Or.inr rfl) rfl rfl

/-- C7: a juniper device in forward mode gets its command set with
`exit_config_mode=False` (the session stays in configuration mode) and
its save is the single `commit(and_quit=True)` action; a device of a
cisco kind gets its command set with the default config-mode exit and its
save is the non-interactive `write mem` command. -/
theorem platform_send_and_save_modes (vf : Bool) (h dt : String)
    (impl rbc verif : Option String) (o : Oracle) (resVar : Option String)
    (hc : o.connectR = none) (he : o.enableR = none) :
    (dt = "juniper" →
      ((deviceBody false vf h dt impl rbc verif o resVar).1.1).filter isSendConfig
        = [Event.sendConfigSet impl false]
      ∧ save_now dt = [Event.commit true])
    ∧ (dt ∈ ciscoKinds →
      ((deviceBody false vf h dt impl rbc verif o resVar).1.1).filter isSendConfig
        = [Event.sendConfigSet impl true]
      ∧ save_now dt = [Event.sendCommand "write mem"]) := by
  constructor
  · rintro rfl
    refine ⟨deviceBody_filter_of_sel false vf h "juniper" impl rbc verif o resVar
      impl false hc he ?_, by decide⟩
    simp [chosenSend, (by decide : strIn "cisco" "juniper" = false),
      (by decide : strIn "juniper" "juniper" = true)]
  · intro hdt
    simp only [ciscoKinds, List.mem_cons, List.not_mem_nil, or_false] at hdt
    rcases hdt with rfl | rfl | rfl
    · refine ⟨deviceBody_filter_of_sel false vf h "cisco_ios" impl rbc verif o resVar
        impl true hc he ?_, by decide⟩
      simp [chosenSend, (by decide : strIn "cisco" "cisco_ios" = true)]
    · refine ⟨deviceBody_filter_of_sel false vf h "cisco_ios_telnet" impl rbc verif o resVar
        impl true hc he ?_, by decide⟩
      simp [chosenSend, (by decide : strIn "cisco" "cisco_ios_telnet" = true)]
    · refine ⟨deviceBody_filter_of_sel false vf h "cisco_asa" impl rbc verif o resVar
        impl true hc he ?_, by decide⟩
      simp [chosenSend, (by decide : strIn "cisco" "cisco_asa" = true)]

/-- C7 witness: concrete juniper device in forward mode. -/
theorem platform_send_and_save_modes_witness :
    ("juniper" = "juniper" →
      ((deviceBody false false "dev1" "juniper" (some "c") (some "r") none okOracle none).1.1).filter isSendConfig
        = [Event.sendConfigSet (some "c") false]
      ∧ save_now "juniper" = [Event.commit true])
    ∧ ("juniper" ∈ ciscoKinds →
      ((deviceBody false false "dev1" "juniper" (some "c") (some "r") none okOracle none).1.1).filter isSendConfig
        = [Event.sendConfigSet (some "c") true]
      ∧ save_now "juniper" = [Event.sendCommand "write mem"]) :=
  platform_send_and_save_modes false "dev1" "juniper" (some "c") (some "r") none
    okOracle none rfl rfl

/-- C8 counterexample: a device whose connect succeeded but whose command
send raised a recognized connection error never has `disconnect` called —
the `try` block has no cleanup clause, so the session is leaked while the
batch continues. -/
theorem post_connect_failure_leaks_session :
    "Successfully connected to dev1"
      ∈ (processDevice false false ⟨some "dev1", some "cisco_ios", some "c", some "r", none⟩
          ⟨none, none, Except.error (PyErr.net NetErr.timeout), Except.ok "", none, none, Except.ok ""⟩ none).1.logs
    ∧ Event.disconnect
      ∉ (processDevice false false ⟨some "dev1", some "cisco_ios", some "c", some "r", none⟩
          ⟨none, none, Except.error (PyErr.net NetErr.timeout), Except.ok "", none, none, Except.ok ""⟩ none).1.events
    ∧ (processDevice false false ⟨some "dev1", some "cisco_ios", some "c", some "r", none⟩
        ⟨none, none, Except.error (PyErr.net NetErr.timeout), Except.ok "", none, none, Except.ok ""⟩ none).1.outcome
      = Outcome.caught NetErr.timeout := by
  refine ⟨?_, ?_, ?_⟩ <;> decide

/-- C8 amended: disconnect is attempted whenever the per-device body runs
to normal completion, but only then — a failure after a successful
connect skips the disconnect call and leaks the session (see the
counterexample). -/
theorem disconnect_on_normal_completion (rb vf : Bool) (rec : DeviceRecordRaw)
    (o : Oracle) (resVar : Option String)
    (hcomp : (processDevice rb vf rec o resVar).1.outcome = Outcome.completed) :
    Event.disconnect ∈ (processDevice rb vf rec o resVar).1.events := by
  obtain ⟨oh, odt, oi, orr, ov⟩ := rec
  match oh, odt with
  | none, none => simp [processDevice] at hcomp
  | none, some dt => simp [processDevice] at hcomp
  | some h, none => simp [processDevice] at hcomp
  | some h, some dt =>
    simp only [processDevice] at hcomp ⊢
    rw [wrapBody_events]
    exact deviceBody_completed_disc rb vf h dt oi orr ov o resVar
      (wrapBody_completed_err _ hcomp)

/-- C8 amended witness: on a fully successful device the disconnect call
is present. -/
theorem disconnect_on_normal_completion_witness :
    Event.disconnect ∈ (processDevice false false
      ⟨some "dev1", some "cisco_ios", some "c", some "r", none⟩ okOracle none).1.events :=
  disconnect_on_normal_completion false false
    ⟨some "dev1", some "cisco_ios", some "c", some "r", none⟩ okOracle none (by decide)

/-- C9 counterexample: a verification command that raises a recognized
connection error marks the device as failed (not succeeded) and the save
decision is never reached — the verification failure is treated exactly
like a command-execution failure, contradicting log-but-continue. -/
theorem verify_error_fails_device :
    succeeded (processDevice false false
      ⟨some "dev1", some "cisco_ios", some "c", some "r", some "show ver"⟩
      ⟨none, none, Except.ok "out", Except.error (PyErr.net NetErr.timeout), none, none, Except.ok ""⟩ none).1
      = false
    ∧ Event.sendCommand "write mem"
      ∉ (processDevice false false
          ⟨some "dev1", some "cisco_ios", some "c", some "r", some "show ver"⟩
          ⟨none, none, Except.ok "out", Except.error (PyErr.net NetErr.timeout), none, none, Except.ok ""⟩ none).1.events
    ∧ Event.disconnect
      ∉ (processDevice false false
          ⟨some "dev1", some "cisco_ios", some "c", some "r", some "show ver"⟩
          ⟨none, none, Except.ok "out", Except.error (PyErr.net NetErr.timeout), none, none, Except.ok ""⟩ none).1.events
    ∧ (processDevice false false
        ⟨some "dev1", some "cisco_ios", some "c", some "r", some "show ver"⟩
        ⟨none, none, Except.ok "out", Except.error (PyErr.net NetErr.timeout), none, none, Except.ok ""⟩ none).1.outcome
      = Outcome.caught NetErr.timeout := by
  refine ⟨?_, ?_, ?_, ?_⟩ <;> decide

/-- C9 amended: an exception in the verification step ends the device's
processing at that point: the only session calls are connect, enable, the
command-set send and the verification send — no save decision and no
disconnect are reached — and the device does not complete (a recognized
connection error marks it failed, any other error aborts the batch). -/
theorem verify_error_aborts_device (rb vf : Bool) (h dt : String)
    (impl rbc verif : Option String) (o : Oracle) (resVar : Option String)
    (cmds : Option String) (em : Bool) (r : String) (e : PyErr)
    (hc : o.connectR = none) (he : o.enableR = none)
    (hsel : chosenSend rb dt impl rbc = some (cmds, em))
    (hs : o.sendR = Except.ok r)
    (ht : truthy verif = true) (hvr : o.verifyR = Except.error e) :
    (processDevice rb vf ⟨some h, some dt, impl, rbc, verif⟩ o resVar).1.events
      = [Event.connect h, Event.enable, Event.sendConfigSet cmds em,
         Event.sendCommand (verif.getD "")]
    ∧ (processDevice rb vf ⟨some h, some dt, impl, rbc, verif⟩ o resVar).1.outcome
        ≠ Outcome.completed
    ∧ succeeded (processDevice rb vf ⟨some h, some dt, impl, rbc, verif⟩ o resVar).1 = false := by
  have hbody : processDevice rb vf ⟨some h, some dt, impl, rbc, verif⟩ o resVar
      = (wrapBody ([Event.connect h, Event.enable, Event.sendConfigSet cmds em]
            ++ [Event.sendCommand (verif.getD "")],
          ["Successfully connected to " ++ h] ++ ["Actions: \n" ++ indentem r], some e),
        some r) := by
    simp only [processDevice, deviceBody, hc, he, hsel, hs]
    unfold afterExec
    simp only [ht, if_true, hvr]
  rw [hbody]
  match e with
  | PyErr.net n => exact ⟨by simp [wrapBody], by simp [wrapBody], by simp [wrapBody, succeeded]⟩
  | PyErr.nameError => exact ⟨by simp [wrapBody], by simp [wrapBody], by simp [wrapBody, succeeded]⟩
  | PyErr.typeError => exact ⟨by simp [wrapBody], by simp [wrapBody], by simp [wrapBody, succeeded]⟩
  | PyErr.keyboardInterrupt => exact ⟨by simp [wrapBody], by simp [wrapBody], by simp [wrapBody, succeeded]⟩
  | PyErr.other => exact ⟨by simp [wrapBody], by simp [wrapBody], by simp [wrapBody, succeeded]⟩

/-- C9 amended witness: concrete timeout inside the verification step. -/
theorem verify_error_aborts_device_witness :
    (processDevice false false ⟨some "dev1", some "cisco_ios", some "c", some "r", some "show ver"⟩
        ⟨none, none, Except.ok "out", Except.error (PyErr.net NetErr.timeout), none, none, Except.ok ""⟩ none).1.events
      = [Event.connect "dev1", Event.enable, Event.sendConfigSet (some "c") true,
         Event.sendCommand ((some "show ver").getD "")]
    ∧ (processDevice false false ⟨some "dev1", some "cisco_ios", some "c", some "r", some "show ver"⟩
        ⟨none, none, Except.ok "out", Except.error (PyErr.net NetErr.timeout), none, none, Except.ok ""⟩ none).1.outcome
        ≠ Outcome.completed
    ∧ succeeded (processDevice false false ⟨some "dev1", some "cisco_ios", some "c", some "r", some "show ver"⟩
        ⟨none, none, Except.ok "out", Except.error (PyErr.net NetErr.timeout), none, none, Except.ok ""⟩ none).1 = false :=
  verify_error_aborts_device false false "dev1" "cisco_ios" (some "c") (some "r")
    (some "show ver")
    ⟨none, none, Except.ok "out", Except.error (PyErr.net NetErr.timeout), none, none, Except.ok ""⟩
    none (some "c") true "out" (PyErr.net NetErr.timeout)
    rfl rfl (by decide) rfl rfl rfl

/-- C10 counterexample: in forward mode a device whose kind contains
neither cisco nor juniper does not always abort the run — `result` is a
loop-carried local, so after an earlier device's successful send the
second device completes normally with the stale transcript logged, and
the batch of three devices runs to the end. -/
theorem stale_result_masks_name_error :
    (runBatch false false none
      [(⟨some "d1", some "cisco_ios", some "c", some "r", none⟩, okOracle),
       (⟨some "d2", some "hp_procurve", some "c", some "r", none⟩, okOracle),
       (⟨some "d3", some "cisco_ios", some "c", some "r", none⟩, okOracle)]).length = 3
    ∧ (runBatch false false none
        [(⟨some "d1", some "cisco_ios", some "c", some "r", none⟩, okOracle),
         (⟨some "d2", some "hp_procurve", some "c", some "r", none⟩, okOracle),
         (⟨some "d3", some "cisco_ios", some "c", some "r", none⟩, okOracle)])[1]?
      = some ⟨[Event.connect "d2", Event.enable, Event.disconnect],
          ["Successfully connected to d2", "Actions: \n    done",
           "Saved changes on d2", "Disconnecting from d2"],
          Outcome.completed⟩ := by
  refine ⟨?_, ?_⟩ <;> decide

/-- C10 amended: in forward mode a device whose kind contains neither
cisco nor juniper has no command set sent at all; when no earlier device
in the run has bound the `result` local (it is `None`), the logging line
raises an unhandled NameError, which is not a recognized connection
error, and the remaining batch is aborted. -/
theorem unknown_kind_forward_aborts (vf : Bool) (rec : DeviceRecordRaw)
    (o : Oracle) (rest : List (DeviceRecordRaw × Oracle)) (h dt : String)
    (hh : rec.host = some h) (hd : rec.device_type = some dt)
    (hci : strIn "cisco" dt = false) (hju : strIn "juniper" dt = false)
    (hc : o.connectR = none) (he : o.enableR = none) :
    (processDevice false vf rec o none).1.events = [Event.connect h, Event.enable]
    ∧ ((processDevice false vf rec o none).1.events).filter isSendConfig = []
    ∧ (processDevice false vf rec o none).1.outcome = Outcome.aborted PyErr.nameError
    ∧ runBatch false vf none ((rec, o) :: rest) = [(processDevice false vf rec o none).1] := by
  obtain ⟨oh, odt, oi, orr, ov⟩ := rec
  simp only at hh hd
  subst hh hd
  have hsel : chosenSend false dt oi orr = none := by
    simp [chosenSend, hci, hju]
  have hbody : (processDevice false vf ⟨some h, some dt, oi, orr, ov⟩ o none).1
      = ⟨[Event.connect h, Event.enable], ["Successfully connected to " ++ h],
          Outcome.aborted PyErr.nameError⟩ := by
    simp [processDevice, deviceBody, hc, he, hsel, wrapBody]
  refine ⟨by rw [hbody], by rw [hbody]; rfl, by rw [hbody], ?_⟩
  exact runBatch_cons_abort false vf _ o none rest PyErr.nameError (by rw [hbody])

/-- C10 amended witness: an hp_procurve device first in a forward run. -/
theorem unknown_kind_forward_aborts_witness :
    (processDevice false false ⟨some "d2", some "hp_procurve", some "c", some "r", none⟩
        okOracle none).1.events = [Event.connect "d2", Event.enable]
    ∧ ((processDevice false false ⟨some "d2", some "hp_procurve", some "c", some "r", none⟩
        okOracle none).1.events).filter isSendConfig = []
    ∧ (processDevice false false ⟨some "d2", some "hp_procurve", some "c", some "r", none⟩
        okOracle none).1.outcome = Outcome.aborted PyErr.nameError
    ∧ runBatch false false none
        [(⟨some "d2", some "hp_procurve", some "c", some "r", none⟩, okOracle),
         (⟨some "d3", some "cisco_ios", some "c", some "r", none⟩, okOracle)]
      = [(processDevice false false ⟨some "d2", some "hp_procurve", some "c", some "r", none⟩
          okOracle none).1] :=
  unknown_kind_forward_aborts false
    ⟨some "d2", some "hp_procurve", some "c", some "r", none⟩ okOracle
    [(⟨some "d3", some "cisco_ios", some "c", some "r", none⟩, okOracle)]
    "d2" "hp_procurve" rfl rfl (by decide) (by decide) rfl rfl

end ForThisSendThat
